import Mathlib

/-!
Verification of the OccuMatch NCO semantic-search service (src/app.py)
against its natural-language specification.

The embedding is shallow: the Python request handlers become pure Lean
functions.  Similarity scores are modelled as rationals, the external
faiss index / embedding model as an abstract k-nearest-neighbour
function `String → Int → List (ℚ × Int)` (score, position) pairs, and
the lazily loaded globals as an explicit `LoaderState` threaded through
`load_artifacts_if_needed`, which additionally records the observable
effects (file-existence checks, file reads, model instantiation) in an
event trace.
-/

set_option maxRecDepth 100000

namespace OccuMatch

/-- A row of the metadata table (`nco_meta.parquet`), with the four
columns `NCO-2015`, `NCO-2004`, `Title`, `Description`. -/
structure OccRecord where
  nco2015 : String
  nco2004 : String
  title : String
  description : String
  deriving DecidableEq, Repr, Inhabited

/-- One element of the `results` list built by `search` in src/app.py
(lines 81-89): the projection of an occupation record plus the derived
confidence percentage. -/
structure SearchResult where
  code_2015 : String
  code_2004 : String
  title : String
  description : String
  confidence : ℚ
  deriving DecidableEq, Repr

/-- The request body of `POST /search` (class `SearchRequest` in
src/app.py, lines 53-56). -/
structure SearchRequest where
  query : String
  k : Int
  min_confidence : ℚ
  deriving DecidableEq, Repr

/-- The success body returned by `search` (src/app.py line 91):
`{"query": q, "count": len(results), "results": results}`. -/
structure SearchResponse where
  query : String
  count : Nat
  results : List SearchResult
  deriving DecidableEq, Repr

/-- Outcome of a `POST /search` request at the HTTP boundary: either an
`HTTPException`-style error with a status code and detail message (an
uncaught `RuntimeError` from the loader surfaces as a 500), or the JSON
success body. -/
inductive SearchOutcome where
  | httpError (status : Nat) (detail : String)
  | ok (resp : SearchResponse)
  deriving DecidableEq, Repr

/-- Body of the per-candidate loop in `search` (src/app.py lines 74-89):
given the pair of `raw_scores[i]` and `ridx`, skip out-of-range
positions, compute `conf_pct = raw_scores[i] * 100.0`, skip candidates
strictly below `min_confidence`, otherwise emit the projected record. -/
def processCandidate (meta : List OccRecord) (min_confidence : ℚ)
    (c : ℚ × Int) : Option SearchResult :=
  if c.2 < 0 ∨ (meta.length : Int) ≤ c.2 then none
  else
    let r := meta.getD c.2.toNat default
    let conf_pct := c.1 * 100
    if conf_pct < min_confidence then none
    else some ⟨r.nco2015, r.nco2004, r.title, r.description, conf_pct⟩

/-- The whole `for i, ridx in enumerate(idx.tolist())` loop of `search`
(src/app.py lines 73-89), taking the zipped (score, position) pairs
returned by `index.search` and accumulating the emitted results in
order. -/
def searchResults (meta : List OccRecord) (min_confidence : ℚ)
    (cands : List (ℚ × Int)) : List SearchResult :=
  cands.filterMap (processCandidate meta min_confidence)

/-- Artifact directory path (src/app.py line 12). -/
def ART_DIR : String := "artifacts"

/-- Path of the similarity-index file (src/app.py line 13). -/
def FAISS_PATH : String := ART_DIR ++ "/faiss.index"

/-- Path of the metadata-table file (src/app.py line 14). -/
def META_PATH : String := ART_DIR ++ "/nco_meta.parquet"

/-- Path of the model-identifier file (src/app.py line 15). -/
def MODEL_NAME_PATH : String := ART_DIR ++ "/model_name.txt"

/-- Abstract handle to a loaded faiss index: all the service reads from
it directly is `ntotal` (src/app.py line 153); its search behaviour is
modelled separately as an abstract knn function. -/
structure FaissIndex where
  ntotal : Nat
  deriving DecidableEq, Repr

/-- Abstract handle to a loaded `SentenceTransformer`, identified by the
model name it was instantiated from (src/app.py line 51). -/
structure Model where
  name : String
  deriving DecidableEq, Repr

/-- The three lazily filled globals `model`, `index`, `meta` of
src/app.py lines 28-30, all `None` at process start. -/
structure LoaderState where
  model : Option Model
  index : Option FaissIndex
  meta : Option (List OccRecord)
  deriving DecidableEq, Repr

/-- The initial process state: all three globals are `None`. -/
def initialState : LoaderState := ⟨none, none, none⟩

/-- `model is not None and index is not None and meta is not None`
(src/app.py line 34). -/
def allLoaded (st : LoaderState) : Bool :=
  st.model.isSome && st.index.isSome && st.meta.isSome

/-- Observable effects of one `load_artifacts_if_needed` call: each
`os.path.exists` check, each artifact read, and the model
instantiation. -/
inductive LoadEvent where
  | existsCheck (path : String)
  | readMeta
  | readIndex
  | readModelName
  | instantiateModel (name : String)
  deriving DecidableEq, Repr

/-- The filesystem / model-store environment a load attempt runs
against: which paths exist, and the (possibly failing) outcome of each
read and of instantiating the model by name. -/
structure Env where
  fileExists : String → Bool
  readMeta : Except String (List OccRecord)
  readIndex : Except String FaissIndex
  readModelName : Except String String
  loadModel : String → Except String Model

/-- Result of one `load_artifacts_if_needed` call: the globals
afterwards, the trace of effects performed, and the raised exception
message, if any. -/
structure LoadResult where
  state : LoaderState
  events : List LoadEvent
  error : Option String
  deriving Repr

/-- `load_artifacts_if_needed` (src/app.py lines 32-51).  Returns
immediately when all three globals are set; otherwise checks the three
artifact paths in order (raising `Missing required artifact: <p>` at the
first absent one), then reads the metadata table, the index, and the
model name, and instantiates the model — assigning each global as soon
as its read succeeds, so a failure partway leaves a partial state, with
`model` (checked first by the guard) always assigned last. -/
def load_artifacts_if_needed (env : Env) (st : LoaderState) : LoadResult :=
  if allLoaded st then ⟨st, [], none⟩
  else if !env.fileExists FAISS_PATH then
    ⟨st, [.existsCheck FAISS_PATH], some ("Missing required artifact: " ++ FAISS_PATH)⟩
  else if !env.fileExists META_PATH then
    ⟨st, [.existsCheck FAISS_PATH, .existsCheck META_PATH],
      some ("Missing required artifact: " ++ META_PATH)⟩
  else if !env.fileExists MODEL_NAME_PATH then
    ⟨st, [.existsCheck FAISS_PATH, .existsCheck META_PATH, .existsCheck MODEL_NAME_PATH],
      some ("Missing required artifact: " ++ MODEL_NAME_PATH)⟩
  else
    let checks : List LoadEvent :=
      [.existsCheck FAISS_PATH, .existsCheck META_PATH, .existsCheck MODEL_NAME_PATH]
    match env.readMeta with
    | .error e => ⟨st, checks ++ [.readMeta], some e⟩
    | .ok m =>
      let st1 : LoaderState := { st with meta := some m }
      match env.readIndex with
      | .error e => ⟨st1, checks ++ [.readMeta, .readIndex], some e⟩
      | .ok ix =>
        let st2 : LoaderState := { st1 with index := some ix }
        match env.readModelName with
        | .error e => ⟨st2, checks ++ [.readMeta, .readIndex, .readModelName], some e⟩
        | .ok nm =>
          match env.loadModel nm with
          | .error e =>
            ⟨st2, checks ++ [.readMeta, .readIndex, .readModelName, .instantiateModel nm],
              some e⟩
          | .ok md =>
            ⟨{ st2 with model := some md },
              checks ++ [.readMeta, .readIndex, .readModelName, .instantiateModel nm], none⟩

/-- Python `str.strip()` as used on the query (src/app.py line 62):
drop whitespace characters from both ends of the string. -/
def pyStrip (s : String) : String :=
  ⟨((s.data.dropWhile Char.isWhitespace).reverse.dropWhile Char.isWhitespace).reverse⟩

/-- The `POST /search` handler `search` (src/app.py lines 58-91).  An
uncaught loader exception surfaces as HTTP 500; an empty trimmed query
raises `HTTPException(400, "Empty query")`; otherwise the knn function
(modelling `model.encode` composed with `index.search` flattened to
(score, position) pairs) is queried and the candidate loop runs against
the loaded metadata table. -/
def searchEndpoint (env : Env) (knn : String → Int → List (ℚ × Int))
    (st : LoaderState) (req : SearchRequest) : LoaderState × SearchOutcome :=
  let lr := load_artifacts_if_needed env st
  match lr.error with
  | some e => (lr.state, .httpError 500 e)
  | none =>
    let q := pyStrip req.query
    if q = "" then (lr.state, .httpError 400 "Empty query")
    else
      let meta := lr.state.meta.getD []
      let cands := knn q req.k
      let results := searchResults meta req.min_confidence cands
      (lr.state, .ok ⟨q, results.length, results⟩)

/-- The JSON payload of `GET /health` (src/app.py lines 150-157). -/
inductive HealthResponse where
  | ok (index_vectors meta_rows : Nat)
  | error (detail : String)
  deriving DecidableEq, Repr

/-- The `GET /health` handler (src/app.py lines 150-157).  The
attribute reads `index.ntotal` and `len(meta)` on the loaded handles can
raise (a corrupt handle), which the embedding models by the fallible
accessors `nt` and `ln`; the handler computes 0 for an unloaded handle
and wraps the whole inspection in try/except, turning any exception into
the `{status: "error", detail: ...}` payload. -/
def health (nt : FaissIndex → Except String Nat)
    (ln : List OccRecord → Except String Nat) (st : LoaderState) : HealthResponse :=
  let body : Except String (Nat × Nat) := do
    let cnt ← match st.index with
      | some ix => nt ix
      | none => pure 0
    let rows ← match st.meta with
      | some m => ln m
      | none => pure 0
    pure (cnt, rows)
  match body with
  | .ok p => .ok p.1 p.2
  | .error e => .error e

/-! ### Auxiliary characterization of the candidate loop -/

/-- The combined keep condition of the two `continue` guards in the
candidate loop: the position is in range and the confidence percentage
is not strictly below the threshold. -/
def keepCand (meta : List OccRecord) (min_confidence : ℚ) (c : ℚ × Int) : Bool :=
  !(decide (c.2 < 0 ∨ (meta.length : Int) ≤ c.2)) && !(decide (c.1 * 100 < min_confidence))

/-- The result emitted for a kept candidate. -/
def emitCand (meta : List OccRecord) (c : ℚ × Int) : SearchResult :=
  let r := meta.getD c.2.toNat default
  ⟨r.nco2015, r.nco2004, r.title, r.description, c.1 * 100⟩

theorem processCandidate_eq (meta : List OccRecord) (minc : ℚ) (c : ℚ × Int) :
    processCandidate meta minc c
      = if keepCand meta minc c then some (emitCand meta c) else none := by
  unfold processCandidate keepCand emitCand
  by_cases h1 : c.2 < 0 ∨ (meta.length : Int) ≤ c.2
  · simp [h1]
  · by_cases h2 : c.1 * 100 < minc <;> simp [h1, h2]

theorem searchResults_eq_map_filter (meta : List OccRecord) (minc : ℚ)
    (cands : List (ℚ × Int)) :
    searchResults meta minc cands
      = (cands.filter (keepCand meta minc)).map (emitCand meta) := by
  induction cands with
  | nil => rfl
  | cons c cs ih =>
    rw [searchResults, List.filterMap_cons, processCandidate_eq]
    by_cases h : keepCand meta minc c = true
    · rw [if_pos h, List.filter_cons_of_pos h, List.map_cons]
      exact congrArg _ ih
    · rw [if_neg h, List.filter_cons_of_neg (by simpa using h)]
      exact ih

theorem mem_searchResults_iff (meta : List OccRecord) (minc : ℚ)
    (cands : List (ℚ × Int)) (r : SearchResult) :
    r ∈ searchResults meta minc cands
      ↔ ∃ c ∈ cands, keepCand meta minc c = true ∧ r = emitCand meta c := by
  rw [searchResults_eq_map_filter]
  simp only [List.mem_map, List.mem_filter]
  constructor
  · rintro ⟨c, ⟨hc, hk⟩, he⟩
    exact ⟨c, hc, hk, he.symm⟩
  · rintro ⟨c, hc, hk, he⟩
    exact ⟨c, ⟨hc, hk⟩, he.symm⟩

theorem keepCand_true_iff (meta : List OccRecord) (minc : ℚ) (c : ℚ × Int) :
    keepCand meta minc c = true
      ↔ (0 ≤ c.2 ∧ c.2 < (meta.length : Int)) ∧ minc ≤ c.1 * 100 := by
  unfold keepCand
  simp only [Bool.and_eq_true, Bool.not_eq_true', decide_eq_false_iff_not, not_or, not_lt, not_le]

/-! ### Loader lemmas -/

/-- An environment in which a load attempt can fully succeed: all three
artifact files exist and every read / the model instantiation
succeeds. -/
def goodEnv (env : Env) : Prop :=
  env.fileExists FAISS_PATH = true ∧ env.fileExists META_PATH = true ∧
  env.fileExists MODEL_NAME_PATH = true ∧
  (∃ m, env.readMeta = .ok m) ∧ (∃ ix, env.readIndex = .ok ix) ∧
  (∃ nm md, env.readModelName = .ok nm ∧ env.loadModel nm = .ok md)

/-- Invariant of the loader globals: `model` is only ever assigned after
`index` and `meta` (it is the last assignment of a successful load), so
whenever `model` is set the other two are set as well.  It holds at
process start and is preserved by every load call. -/
def loaderInv (st : LoaderState) : Bool :=
  !st.model.isSome || (st.index.isSome && st.meta.isSome)

theorem load_of_allLoaded (env : Env) (st : LoaderState) (h : allLoaded st = true) :
    load_artifacts_if_needed env st = ⟨st, [], none⟩ := by
  unfold load_artifacts_if_needed
  rw [if_pos h]

theorem load_artifacts_cases (env : Env) (st : LoaderState) (r : LoadResult)
    (hr : load_artifacts_if_needed env st = r) :
    (allLoaded st = true ∧ r = ⟨st, [], none⟩)
    ∨ (allLoaded st = false ∧ r.state.model = st.model ∧ r.events ≠ []
        ∧ ∃ e, r.error = some e)
    ∨ (allLoaded st = false ∧ r.events ≠ [] ∧ r.error = none
        ∧ ∃ md ix m, r.state = ⟨some md, some ix, some m⟩
            ∧ env.readMeta = .ok m ∧ env.readIndex = .ok ix) := by
  unfold load_artifacts_if_needed at hr
  by_cases hall : allLoaded st = true
  · rw [if_pos hall] at hr
    exact Or.inl ⟨hall, hr.symm⟩
  · rw [if_neg hall] at hr
    rw [Bool.not_eq_true] at hall
    right
    repeat' split at hr
    all_goals subst hr
    all_goals simp_all
    exact ⟨_, _, _, ⟨rfl, rfl, rfl⟩, rfl, rfl⟩

theorem allLoaded_of_load_error_none (env : Env) (st : LoaderState)
    (h : (load_artifacts_if_needed env st).error = none) :
    allLoaded (load_artifacts_if_needed env st).state = true := by
  rcases load_artifacts_cases env st _ rfl with ⟨hall, hr⟩ | ⟨_, _, _, e, he⟩ |
    ⟨_, _, _, md, ix, m, hst, _, _⟩
  · rw [hr]
    exact hall
  · rw [h] at he
    cases he
  · rw [hst]
    rfl

theorem load_goodEnv (env : Env) (st : LoaderState) (hg : goodEnv env) :
    (load_artifacts_if_needed env st).error = none := by
  obtain ⟨h1, h2, h3, ⟨m, hm⟩, ⟨ix, hix⟩, ⟨nm, md, hnm, hmd⟩⟩ := hg
  by_cases hall : allLoaded st = true
  · rw [load_of_allLoaded env st hall]
  · unfold load_artifacts_if_needed
    rw [if_neg hall]
    simp [h1, h2, h3, hm, hix, hnm, hmd]

theorem allLoaded_false_of_model_none (st : LoaderState) (h : st.model = none) :
    allLoaded st = false := by
  unfold allLoaded
  rw [h]
  rfl

theorem model_none_of_load_fail (env : Env) (st : LoaderState)
    (hinv : loaderInv st = true) (e : String)
    (hfail : (load_artifacts_if_needed env st).error = some e) :
    (load_artifacts_if_needed env st).state.model = none := by
  rcases load_artifacts_cases env st _ rfl with ⟨_, hr⟩ | ⟨hall, hm, _, _⟩ | ⟨_, _, hn, _⟩
  · rw [hr] at hfail
    cases hfail
  · rw [hm]
    cases hmo : st.model with
    | none => rfl
    | some md => simp_all [loaderInv, allLoaded, hmo]
  · rw [hn] at hfail
    cases hfail

theorem load_events_ne_nil_of_not_allLoaded (env : Env) (st : LoaderState)
    (h : allLoaded st = false) :
    (load_artifacts_if_needed env st).events ≠ [] := by
  rcases load_artifacts_cases env st _ rfl with ⟨hall, _⟩ | ⟨_, _, hev, _⟩ | ⟨_, hev, _⟩
  · rw [hall] at h
    cases h
  · exact hev
  · exact hev

theorem loaderInv_preserved (env : Env) (st : LoaderState) (h : loaderInv st = true) :
    loaderInv (load_artifacts_if_needed env st).state = true := by
  rcases load_artifacts_cases env st _ rfl with ⟨_, hr⟩ | ⟨hall, hm, _, _⟩ |
    ⟨_, _, _, md, ix, m, hst, _, _⟩
  · rw [hr]
    exact h
  · rw [loaderInv, hm]
    cases hmo : st.model with
    | none => rfl
    | some md => simp_all [loaderInv, allLoaded, hmo]
  · rw [hst]
    rfl

/-! ### Endpoint lemmas -/

theorem searchEndpoint_load_error (env : Env) (knn : String → Int → List (ℚ × Int))
    (st : LoaderState) (req : SearchRequest) (e : String)
    (h : (load_artifacts_if_needed env st).error = some e) :
    (searchEndpoint env knn st req).2 = .httpError 500 e := by
  unfold searchEndpoint
  simp [h]

theorem searchEndpoint_empty_query (env : Env) (knn : String → Int → List (ℚ × Int))
    (st : LoaderState) (req : SearchRequest)
    (hload : (load_artifacts_if_needed env st).error = none)
    (hq : pyStrip req.query = "") :
    (searchEndpoint env knn st req).2 = .httpError 400 "Empty query" := by
  unfold searchEndpoint
  simp [hload, hq]

theorem searchEndpoint_ok_form (env : Env) (knn : String → Int → List (ℚ × Int))
    (st : LoaderState) (req : SearchRequest)
    (hload : (load_artifacts_if_needed env st).error = none)
    (hq : pyStrip req.query ≠ "") :
    (searchEndpoint env knn st req).2 =
      .ok ⟨pyStrip req.query,
        (searchResults ((load_artifacts_if_needed env st).state.meta.getD [])
          req.min_confidence (knn (pyStrip req.query) req.k)).length,
        searchResults ((load_artifacts_if_needed env st).state.meta.getD [])
          req.min_confidence (knn (pyStrip req.query) req.k)⟩ := by
  unfold searchEndpoint
  simp [hload, hq]

/-! ### Concrete fixtures used by witnesses and counterexamples -/

/-- A sample metadata row. -/
def recTailor : OccRecord := ⟨"7318.0100", "7435.10", "Tailor", "Sews garments"⟩

/-- A second sample metadata row. -/
def recHerder : OccRecord := ⟨"9999.0001", "9999.99", "Cow herder", "Herds cows"⟩

/-- A two-row metadata table. -/
def metaEx : List OccRecord := [recTailor, recHerder]

/-- An environment in which every load step succeeds. -/
def envGood : Env :=
  { fileExists := fun _ => true
    readMeta := .ok metaEx
    readIndex := .ok ⟨2⟩
    readModelName := .ok "mini-lm"
    loadModel := fun nm => .ok ⟨nm⟩ }

/-- An environment in which no artifact file exists. -/
def envMissing : Env :=
  { fileExists := fun _ => false
    readMeta := .error "unreadable"
    readIndex := .error "unreadable"
    readModelName := .error "unreadable"
    loadModel := fun _ => .error "unknown model" }

/-- A fully loaded state matching `envGood`. -/
def stFull : LoaderState := ⟨some ⟨"mini-lm"⟩, some ⟨2⟩, some metaEx⟩

/-- A sample knn answer: three (score, position) pairs, one of them with
an out-of-range position and one with a score above 1. -/
def knnEx : String → Int → List (ℚ × Int) :=
  fun _ _ => [((9 : ℚ)/10, 0), ((3 : ℚ)/2, 1), ((1 : ℚ)/10, -1)]

/-- A sample request. -/
def reqTailor : SearchRequest := ⟨"tailor", 3, 0⟩

/-- Non-raising count accessor for the health fixtures. -/
def ntEx : FaissIndex → Except String Nat := fun ix => .ok ix.ntotal

/-- Non-raising row-count accessor for the health fixtures. -/
def lnEx : List OccRecord → Except String Nat := fun m => .ok m.length

/-! ### Claim theorems -/

/-- C2: the emitted results are exactly the kept candidates, each mapped
to its projected record, in the order the index returned them: the
service never re-sorts, it only drops candidates, so the result sequence
is a sublist of the candidate sequence mapped through the emitting
projection. -/
theorem search_order_preservation (meta : List OccRecord) (minc : ℚ)
    (cands : List (ℚ × Int)) :
    searchResults meta minc cands
        = (cands.filter (keepCand meta minc)).map (emitCand meta) ∧
      (searchResults meta minc cands).Sublist (cands.map (emitCand meta)) := by
  refine ⟨searchResults_eq_map_filter meta minc cands, ?_⟩
  rw [searchResults_eq_map_filter]
  exact (List.filter_sublist _).map _

/-- C4: a candidate whose index position is negative or at least the
metadata row count produces no result, raises no error and leaves the
processing of the remaining candidates exactly as if it were absent. -/
theorem oob_position_silently_dropped (meta : List OccRecord) (minc s : ℚ)
    (ridx : Int) (rest : List (ℚ × Int))
    (hoob : ridx < 0 ∨ (meta.length : Int) ≤ ridx) :
    processCandidate meta minc (s, ridx) = none ∧
      searchResults meta minc ((s, ridx) :: rest) = searchResults meta minc rest := by
  have hpc : processCandidate meta minc (s, ridx) = none := by
    unfold processCandidate
    rw [if_pos hoob]
  refine ⟨hpc, ?_⟩
  rw [searchResults, List.filterMap_cons, hpc]
  rfl

/-- Witness for C4: position 5 in a two-row table is dropped and the
remaining candidate still produces its result. -/
theorem oob_position_silently_dropped_witness :
    ((5 : Int) < 0 ∨ ((metaEx.length : Int) ≤ 5)) ∧
      (processCandidate metaEx 0 ((9 : ℚ)/10, 5) = none ∧
        searchResults metaEx 0 [((9 : ℚ)/10, 5), ((1 : ℚ)/2, 0)]
          = searchResults metaEx 0 [((1 : ℚ)/2, 0)]) :=
  ⟨by decide, oob_position_silently_dropped metaEx 0 ((9 : ℚ)/10) 5 [((1 : ℚ)/2, 0)]
    (by decide)⟩

/-- C5: after a call that leaves the model, index and metadata all
loaded, a subsequent call — under any filesystem environment — performs
no existence checks, no reads and no model instantiation (its event
trace is empty), raises no error and leaves the state unchanged. -/
theorem ensure_loaded_second_call_noop (env env2 : Env) (st : LoaderState)
    (hall : allLoaded (load_artifacts_if_needed env st).state = true) :
    load_artifacts_if_needed env2 (load_artifacts_if_needed env st).state
      = ⟨(load_artifacts_if_needed env st).state, [], none⟩ :=
  load_of_allLoaded env2 _ hall

/-- Witness for C5: after a successful first load from the good
environment, a second call in the environment with all files missing is
still a no-op. -/
theorem ensure_loaded_second_call_noop_witness :
    allLoaded (load_artifacts_if_needed envGood initialState).state = true ∧
      load_artifacts_if_needed envMissing (load_artifacts_if_needed envGood initialState).state
        = ⟨(load_artifacts_if_needed envGood initialState).state, [], none⟩ :=
  ⟨by with_unfolding_all decide,
    ensure_loaded_second_call_noop envGood envMissing initialState
      (by with_unfolding_all decide)⟩

/-- C10: when the index returns exactly k (score, position) pairs, the
candidate loop only ever drops candidates, so at most k results are
emitted. -/
theorem search_results_at_most_k (meta : List OccRecord) (minc : ℚ)
    (cands : List (ℚ × Int)) (k : ℕ) (hk : cands.length = k) :
    (searchResults meta minc cands).length ≤ k := by
  rw [← hk, searchResults]
  exact List.length_filterMap_le _ _

/-- Witness for C10 on a three-candidate answer. -/
theorem search_results_at_most_k_witness :
    (knnEx "tailor" 3).length = 3 ∧
      (searchResults metaEx 0 (knnEx "tailor" 3)).length ≤ 3 :=
  ⟨by decide, search_results_at_most_k metaEx 0 (knnEx "tailor" 3) 3 (by decide)⟩

/-- C1: on a search call whose load step raises no error and whose query
trims non-empty, the endpoint answers with a success body whose count
equals the number of emitted results, every emitted result has
confidence at least `min_confidence`, and a candidate whose percentage
is strictly below `min_confidence` is dropped while the remaining
candidates are still processed (per-candidate filter, no
short-circuit). -/
theorem search_count_and_min_confidence (env : Env)
    (knn : String → Int → List (ℚ × Int)) (st : LoaderState) (req : SearchRequest)
    (hload : (load_artifacts_if_needed env st).error = none)
    (hq : pyStrip req.query ≠ "") :
    ∃ resp, (searchEndpoint env knn st req).2 = .ok resp ∧
      resp.count = resp.results.length ∧
      (∀ r ∈ resp.results, req.min_confidence ≤ r.confidence) ∧
      (∀ (meta : List OccRecord) (s : ℚ) (i : Int) (rest : List (ℚ × Int)),
        s * 100 < req.min_confidence →
          searchResults meta req.min_confidence ((s, i) :: rest)
            = searchResults meta req.min_confidence rest) := by
  refine ⟨_, searchEndpoint_ok_form env knn st req hload hq, rfl, ?_, ?_⟩
  · intro r hr
    rcases (mem_searchResults_iff _ _ _ _).mp hr with ⟨c, _, hk, he⟩
    rcases (keepCand_true_iff _ _ _).mp hk with ⟨_, hconf⟩
    rw [he]
    exact hconf
  · intro meta s i rest hlt
    have hk : keepCand meta req.min_confidence (s, i) = false := by
      unfold keepCand
      simp [hlt]
    rw [searchResults, List.filterMap_cons, processCandidate_eq, hk]
    simp [searchResults]

/-- Witness for C1 at a fully loaded state and the query "tailor". -/
theorem search_count_and_min_confidence_witness :
    ((load_artifacts_if_needed envGood stFull).error = none ∧ pyStrip "tailor" ≠ "") ∧
      (∃ resp, (searchEndpoint envGood knnEx stFull reqTailor).2 = .ok resp ∧
        resp.count = resp.results.length ∧
        (∀ r ∈ resp.results, reqTailor.min_confidence ≤ r.confidence) ∧
        (∀ (meta : List OccRecord) (s : ℚ) (i : Int) (rest : List (ℚ × Int)),
          s * 100 < reqTailor.min_confidence →
            searchResults meta reqTailor.min_confidence ((s, i) :: rest)
              = searchResults meta reqTailor.min_confidence rest)) :=
  ⟨⟨by with_unfolding_all decide, by with_unfolding_all decide⟩,
    search_count_and_min_confidence envGood knnEx stFull reqTailor
      (by with_unfolding_all decide) (by with_unfolding_all decide)⟩

/-- C3 counterexample: when the artifact files are missing, a request
whose query is whitespace-only is answered with the uncaught loader
error (HTTP 500), not with the HTTP 400 client error, because `search`
calls `load_artifacts_if_needed` before validating the query. -/
theorem empty_query_load_failure_cex :
    (searchEndpoint envMissing knnEx initialState ⟨"   ", 5, 0⟩).2
        = .httpError 500 ("Missing required artifact: " ++ FAISS_PATH) ∧
      (searchEndpoint envMissing knnEx initialState ⟨"   ", 5, 0⟩).2
        ≠ .httpError 400 "Empty query" := by
  with_unfolding_all decide

/-- C3 (amended): provided the artifact-load step raises no error, every
request whose query trims to empty (empty or whitespace-only) is
answered with the client error HTTP 400 "Empty query". -/
theorem empty_query_http_400 (env : Env) (knn : String → Int → List (ℚ × Int))
    (st : LoaderState) (req : SearchRequest)
    (hload : (load_artifacts_if_needed env st).error = none)
    (hq : pyStrip req.query = "") :
    (searchEndpoint env knn st req).2 = .httpError 400 "Empty query" :=
  searchEndpoint_empty_query env knn st req hload hq

/-- Witness for the amended C3: a whitespace-only query against a loaded
state is answered HTTP 400. -/
theorem empty_query_http_400_witness :
    ((load_artifacts_if_needed envGood stFull).error = none ∧ pyStrip "  " = "") ∧
      (searchEndpoint envGood knnEx stFull ⟨"  ", 5, 0⟩).2 = .httpError 400 "Empty query" :=
  ⟨⟨by with_unfolding_all decide, by with_unfolding_all decide⟩,
    empty_query_http_400 envGood knnEx stFull ⟨"  ", 5, 0⟩
      (by with_unfolding_all decide) (by with_unfolding_all decide)⟩

/-- C6: a failed load attempt (in any state satisfying the loader
invariant, which holds at process start and is preserved by every load)
surfaces as HTTP 500 on the triggering request, and caches no failed
state: afterwards `model` is still unset, any subsequent call
re-attempts the load (its event trace is nonempty under every
environment), and a subsequent call in an environment where all steps
succeed completes the load. -/
theorem load_failure_not_cached (env : Env) (st : LoaderState) (e : String)
    (hinv : loaderInv st = true)
    (hfail : (load_artifacts_if_needed env st).error = some e) :
    (load_artifacts_if_needed env st).state.model = none ∧
      (∀ knn req, (searchEndpoint env knn st req).2 = .httpError 500 e) ∧
      (∀ env2, (load_artifacts_if_needed env2
          (load_artifacts_if_needed env st).state).events ≠ []) ∧
      (∀ env2, goodEnv env2 →
        (load_artifacts_if_needed env2 (load_artifacts_if_needed env st).state).error = none ∧
          allLoaded (load_artifacts_if_needed env2
            (load_artifacts_if_needed env st).state).state = true) := by
  have hm := model_none_of_load_fail env st hinv e hfail
  refine ⟨hm, ?_, ?_, ?_⟩
  · intro knn req
    exact searchEndpoint_load_error env knn st req e hfail
  · intro env2
    exact load_events_ne_nil_of_not_allLoaded env2 _ (allLoaded_false_of_model_none _ hm)
  · intro env2 hg
    have herr := load_goodEnv env2 (load_artifacts_if_needed env st).state hg
    exact ⟨herr, allLoaded_of_load_error_none env2 _ herr⟩

/-- Witness for C6: the first load fails on the missing index file; the
state still has no model cached, the triggering request gets HTTP 500,
and a retry in the good environment succeeds. -/
theorem load_failure_not_cached_witness :
    (loaderInv initialState = true ∧
        (load_artifacts_if_needed envMissing initialState).error
          = some ("Missing required artifact: " ++ FAISS_PATH)) ∧
      ((load_artifacts_if_needed envMissing initialState).state.model = none ∧
        (∀ knn req, (searchEndpoint envMissing knn initialState req).2
          = .httpError 500 ("Missing required artifact: " ++ FAISS_PATH)) ∧
        (∀ env2, (load_artifacts_if_needed env2
            (load_artifacts_if_needed envMissing initialState).state).events ≠ []) ∧
        (∀ env2, goodEnv env2 →
          (load_artifacts_if_needed env2
              (load_artifacts_if_needed envMissing initialState).state).error = none ∧
            allLoaded (load_artifacts_if_needed env2
              (load_artifacts_if_needed envMissing initialState).state).state = true)) :=
  ⟨⟨by decide, by with_unfolding_all decide⟩,
    load_failure_not_cached envMissing initialState
      ("Missing required artifact: " ++ FAISS_PATH)
      (by decide) (by with_unfolding_all decide)⟩

/-- C7: for every process state and every behaviour of the two
inspection reads, /health returns either an ok payload or an error
payload: an unloaded state reports counts of 0, an exception raised
while inspecting a loaded handle is caught and returned as the error
payload instead of propagating, and loaded handles that inspect cleanly
report their vector and row counts. -/
theorem health_reports_never_raises (nt : FaissIndex → Except String Nat)
    (ln : List OccRecord → Except String Nat) (st : LoaderState) :
    ((∃ c r, health nt ln st = .ok c r) ∨ (∃ d, health nt ln st = .error d)) ∧
      (st.index = none → st.meta = none → health nt ln st = .ok 0 0) ∧
      (∀ ix e, st.index = some ix → nt ix = .error e → health nt ln st = .error e) ∧
      (∀ ix m c rws, st.index = some ix → st.meta = some m →
        nt ix = .ok c → ln m = .ok rws → health nt ln st = .ok c rws) := by
  refine ⟨?_, ?_, ?_, ?_⟩
  · cases h : health nt ln st with
    | ok c r => exact Or.inl ⟨c, r, rfl⟩
    | error d => exact Or.inr ⟨d, rfl⟩
  · intro h1 h2
    simp only [health, h1, h2]
    rfl
  · intro ix e h1 h2
    simp only [health, h1, h2]
    rfl
  · intro ix m c rws h1 h2 h3 h4
    simp only [health, h1, h2, h3, h4]
    rfl

/-- Witness for C7: at process start nothing is loaded and /health
reports ok with both counts 0. -/
theorem health_reports_never_raises_witness :
    (initialState.index = none ∧ initialState.meta = none) ∧
      health ntEx lnEx initialState = .ok 0 0 :=
  ⟨⟨rfl, rfl⟩, (health_reports_never_raises ntEx lnEx initialState).2.1 rfl rfl⟩

/-- C8: every emitted result carries as its confidence exactly the raw
similarity score of its candidate multiplied by 100; no clamping is
applied, so a raw score outside [0, 1] passes through as a confidence
outside [0, 100]. -/
theorem confidence_raw_times_100 (meta : List OccRecord) (minc : ℚ)
    (cands : List (ℚ × Int)) (r : SearchResult)
    (hr : r ∈ searchResults meta minc cands) :
    ∃ s ridx, (s, ridx) ∈ cands ∧ r.confidence = s * 100 := by
  rcases (mem_searchResults_iff _ _ _ _).mp hr with ⟨c, hc, _, he⟩
  refine ⟨c.1, c.2, by simpa using hc, ?_⟩
  rw [he]
  rfl

/-- Witness for C8: a raw score of 3/2 (a non-unit vector score above 1)
is emitted with confidence 150, outside [0, 100] and unchanged. -/
theorem confidence_raw_times_100_witness :
    ((⟨"9999.0001", "9999.99", "Cow herder", "Herds cows", 150⟩ : SearchResult)
        ∈ searchResults metaEx 0 [((3 : ℚ)/2, (1 : Int))]) ∧
      (∃ (s : ℚ) (ridx : Int), (s, ridx) ∈ [((3 : ℚ)/2, (1 : Int))] ∧ (150 : ℚ) = s * 100) :=
  ⟨by with_unfolding_all decide,
    confidence_raw_times_100 metaEx 0 [((3 : ℚ)/2, (1 : Int))]
      ⟨"9999.0001", "9999.99", "Cow herder", "Herds cows", 150⟩
      (by with_unfolding_all decide)⟩

/-- C9: a successful search response consists of the trimmed query
string, a count equal to the number of results, and results that each
project the metadata record at an in-range index position — its two
codes, title and description — together with the derived confidence. -/
theorem search_response_projection (env : Env)
    (knn : String → Int → List (ℚ × Int)) (st : LoaderState) (req : SearchRequest)
    (hload : (load_artifacts_if_needed env st).error = none)
    (hq : pyStrip req.query ≠ "") :
    ∃ resp meta, (searchEndpoint env knn st req).2 = .ok resp ∧
      (load_artifacts_if_needed env st).state.meta = some meta ∧
      resp.query = pyStrip req.query ∧
      resp.count = resp.results.length ∧
      ∀ r ∈ resp.results, ∃ (s : ℚ) (ridx : Int),
        (s, ridx) ∈ knn (pyStrip req.query) req.k ∧
        0 ≤ ridx ∧ ridx < (meta.length : Int) ∧
        r.code_2015 = (meta.getD ridx.toNat default).nco2015 ∧
        r.code_2004 = (meta.getD ridx.toNat default).nco2004 ∧
        r.title = (meta.getD ridx.toNat default).title ∧
        r.description = (meta.getD ridx.toNat default).description ∧
        r.confidence = s * 100 := by
  have hall := allLoaded_of_load_error_none env st hload
  obtain ⟨m, hm⟩ : ∃ m, (load_artifacts_if_needed env st).state.meta = some m := by
    rcases h : (load_artifacts_if_needed env st).state.meta with _ | m
    · unfold allLoaded at hall
      rw [h] at hall
      simp at hall
    · exact ⟨m, rfl⟩
  refine ⟨_, m, searchEndpoint_ok_form env knn st req hload hq, hm, rfl, rfl, ?_⟩
  intro r hr
  rw [hm] at hr
  simp only [Option.getD_some] at hr
  rcases (mem_searchResults_iff _ _ _ _).mp hr with ⟨c, hc, hk, he⟩
  rcases (keepCand_true_iff _ _ _).mp hk with ⟨⟨hb1, hb2⟩, _⟩
  subst he
  exact ⟨c.1, c.2, by simpa using hc, hb1, hb2, rfl, rfl, rfl, rfl, rfl⟩

/-- Witness for C9 at a fully loaded state and the query "tailor". -/
theorem search_response_projection_witness :
    ((load_artifacts_if_needed envGood stFull).error = none ∧ pyStrip "tailor" ≠ "") ∧
      (∃ resp meta, (searchEndpoint envGood knnEx stFull reqTailor).2 = .ok resp ∧
        (load_artifacts_if_needed envGood stFull).state.meta = some meta ∧
        resp.query = pyStrip reqTailor.query ∧
        resp.count = resp.results.length ∧
        ∀ r ∈ resp.results, ∃ (s : ℚ) (ridx : Int),
          (s, ridx) ∈ knnEx (pyStrip reqTailor.query) reqTailor.k ∧
          0 ≤ ridx ∧ ridx < (meta.length : Int) ∧
          r.code_2015 = (meta.getD ridx.toNat default).nco2015 ∧
          r.code_2004 = (meta.getD ridx.toNat default).nco2004 ∧
          r.title = (meta.getD ridx.toNat default).title ∧
          r.description = (meta.getD ridx.toNat default).description ∧
          r.confidence = s * 100) :=
  ⟨⟨by with_unfolding_all decide, by with_unfolding_all decide⟩,
    search_response_projection envGood knnEx stFull reqTailor
      (by with_unfolding_all decide) (by with_unfolding_all decide)⟩

end OccuMatch
